import Mathlib

/-
Verification development for the gmail_access receipt pipeline.

Shallow embedding conventions:
* `decimal.Decimal` money values are represented exactly in minor units
  (hundredths) as integers, so `Decimal("4.80")` is 480: every amount the
  program reads or produces is quantized to two decimal places.
  `Decimal.quantize(Decimal("0.01"), ROUND_HALF_UP)` after a product of two
  such amounts is modelled by `divRoundHalfUp` below (round half away from
  zero, which is what ROUND_HALF_UP does on both signs).
* Python exceptions (`ValueError`, `IndexError`, `AttributeError`) are
  modelled with `Except String`.
* `dateutil.parser.parse` is an external library; functions that call it take
  a parameter `pd : String → Option String` standing for the parse that
  either yields a date (rendered as a string) or fails (the surrounding
  `try/except ParserError` is folded into the `Option`).
* Python `str` operations used by the source are re-implemented over
  `List Char` so that every definition is executable and kernel-reducible.
-/

deriving instance DecidableEq for Except

/-! ## Money primitives (decimal.Decimal rounding, receipt.py / item.py) -/

/-- ROUND_HALF_UP division for a positive divisor: the nearest integer to
`n / d` with ties going away from zero (which is what Python `decimal`'s
ROUND_HALF_UP does on both signs). -/
def divRoundHalfUp (n d : ℤ) : ℤ :=
  if 0 ≤ n then Int.fdiv (2 * n + d) (2 * d) else -Int.fdiv (2 * (-n) + d) (2 * d)

/-! ## Item (item.py) -/

/-- `ItemCategory` enumeration of item.py. -/
inductive ItemCategory where
  | NONE | APP | TV | SERVICE
deriving DecidableEq

/-- `ItemType` enumeration of item.py. -/
inductive ItemType where
  | MOVIE_RENTAL
  | MOVIE_PURCHASE
  | IN_APP_PURCHASE
  | STREAMING_SUBSCRIPTION
  | SOFTWARE_SUBSCRIPTION
  | SERVICE_SUBSCRIPTION
  | INDIVIDUAL_SUBSCRIPTION
  | IN_APP_MOVIE_RENTAL
  | UNKNOWN
deriving DecidableEq

/-- `SubscriptionFrequency` enumeration of item.py. -/
inductive SubscriptionFrequency where
  | MONTHLY | SEMI_ANNUAL | ANNUAL | UNKNOWN
deriving DecidableEq

/-- `TAXABLE_ITEM_TYPES` of item.py. -/
def TAXABLE_ITEM_TYPES : List ItemType :=
  [ItemType.IN_APP_PURCHASE, ItemType.SOFTWARE_SUBSCRIPTION, ItemType.SERVICE_SUBSCRIPTION]

/-- The `Item` entity of item.py: the attributes set by `Item.__init__`. -/
structure Item where
  item_category : ItemCategory
  purchase_amount : ℤ
  other_amount : ℤ
  image_url : String
  tax_applied : ℤ
  total_amount : ℤ
  item_type : ItemType
  description_1 : String
  description_2 : Option String
  subscription_frequency : Option SubscriptionFrequency
  next_renewal_date : Option String
  device : Option String
  taxable : Bool
deriving DecidableEq

/-- `Item.calc_tax` (item.py line 524):
`(purchase_amount * tax_rate).quantize(Decimal("0.01"), ROUND_HALF_UP)`.
Both operands are scaled by 100, so their exact product is scaled by 10000
and re-quantizing to hundredths divides by 100 with half-up rounding. -/
def Item.calc_tax (it : Item) (tax_rate : ℤ) : ℤ :=
  divRoundHalfUp (it.purchase_amount * tax_rate) 100

/-- `Item.apply_tax` (item.py lines 505-522): resets `tax_applied` to zero,
recomputes it when the item is taxable, recomputes `total_amount`, and
returns the applied tax (here as the second component). -/
def Item.apply_tax (it : Item) (tax_rate : ℤ) : Item × ℤ :=
  let t : ℤ := if it.taxable then it.calc_tax tax_rate else 0
  ({ it with tax_applied := t, total_amount := it.purchase_amount + t }, t)

/-- `Item.adjust_tax` (item.py lines 527-537). -/
def Item.adjust_tax (it : Item) (tax_adjustment : ℤ) : Item :=
  { it with tax_applied := it.tax_applied + tax_adjustment,
            total_amount := it.total_amount + tax_adjustment }

/-! ## Receipt and tax reconciliation (receipt.py) -/

/-- The `Receipt` entity of receipt.py, restricted to the fields read or
written by `apply_tax_to_items` (the identification/date/card/path fields are
carried unchanged by the source and are not modelled). -/
structure Receipt where
  subtotal : ℤ
  tax : ℤ
  total : ℤ
  items : List Item
deriving DecidableEq

/-- `Receipt.tax_rate` class constant (`Decimal("0.08")`, i.e. 8 minor
units). -/
def Receipt.tax_rate : ℤ := 8

/-- Model of `next((i for i, x in enumerate(l) if p x), None)`: index of the
first element satisfying `p`, or `none`. -/
def firstMatchIdx {α : Type} (p : α → Bool) : List α → Option Nat
  | [] => none
  | a :: rest => if p a then some 0 else (firstMatchIdx p rest).map (· + 1)

/-- Model of `self.items[i].adjust_tax(adj)`: adjust the item at index `i`. -/
def adjustAt : List Item → Nat → ℤ → List Item
  | [], _, _ => []
  | it :: rest, 0, adj => it.adjust_tax adj :: rest
  | it :: rest, n + 1, adj => it :: adjustAt rest n adj

/-- Body of `Receipt.apply_tax_to_items` (receipt.py lines 151-201) up to the
final subtotal assignment: applies tax to every item and resolves the
discrepancy with the receipt-level tax, returning the new item list or the
raised `ValueError`. -/
def reconNewItems (tax : ℤ) (items : List Item) : Except String (List Item) :=
  let pairs := items.map (fun it => it.apply_tax Receipt.tax_rate)
  let items1 := pairs.map Prod.fst
  let items_tax_calc := pairs.map Prod.snd
  let total_tax_calc := items_tax_calc.sum
  if tax ≠ 0 ∧ total_tax_calc = 0 then
    let items_tax_calc_ovrd := items1.map (fun it => it.calc_tax Receipt.tax_rate)
    match firstMatchIdx (fun t => t == tax) items_tax_calc_ovrd with
    | none => .error "ValueError: none of the items are marked as taxable and no one item accounts for the entire tax amount"
    | some i => .ok (adjustAt items1 i tax)
  else
    let tax_adj := tax - total_tax_calc
    if tax_adj ≠ 0 then
      match firstMatchIdx (fun t => t != 0) items_tax_calc with
      | none => .error "ValueError: could not determine which item to apply the tax adjustment to"
      | some i =>
        if |tax_adj| > 4 ∧ items_tax_calc.countP (fun t => t != 0) > 1 then
          .error "ValueError: a significant tax adjustment is required and the number of taxable items is greater than one"
        else
          .ok (adjustAt items1 i tax_adj)
    else
      .ok items1

/-- `Receipt.apply_tax_to_items` (receipt.py lines 141-203): reconcile the
items and then set the subtotal when it is zero
(`self.subtotal = self.subtotal or self.total - self.tax`). -/
def applyTaxToItems (r : Receipt) : Except String Receipt :=
  match reconNewItems r.tax r.items with
  | .error e => .error e
  | .ok items2 =>
      .ok { r with items := items2,
                   subtotal := if r.subtotal ≠ 0 then r.subtotal else r.total - r.tax }

/-! ## Python string operations used by item.py and the parsers

All are executable re-implementations over `List Char` of the exact `str`
methods the source calls (`in`, `startswith`, `replace`, `strip`, `lower`,
`split(":")[0]`, `split(":", 1)[1]`, slicing). -/

/-- Whether the first list is a prefix of the second. -/
def listIsPrefixOf : List Char → List Char → Bool
  | [], _ => true
  | _ :: _, [] => false
  | c :: cs, d :: ds => c == d && listIsPrefixOf cs ds

/-- Whether `pat` occurs as a contiguous sublist (Python `pat in s`). -/
def containsSub (pat : List Char) : List Char → Bool
  | [] => listIsPrefixOf pat []
  | c :: rest => listIsPrefixOf pat (c :: rest) || containsSub pat rest

/-- Left-to-right non-overlapping replacement of `pat` by `rep`, with fuel
bounded by the string length (each step consumes at least one character, so
the fuel never runs out for a nonempty pattern). -/
def replaceSubAux (pat rep : List Char) : Nat → List Char → List Char
  | _, [] => []
  | 0, s => s
  | fuel + 1, c :: rest =>
    if listIsPrefixOf pat (c :: rest) then
      rep ++ replaceSubAux pat rep fuel (List.drop pat.length (c :: rest))
    else
      c :: replaceSubAux pat rep fuel rest

/-- Python `s.replace(pat, rep)` for a nonempty pattern (the source only ever
replaces nonempty literals). -/
def pyReplace (s pat rep : String) : String :=
  if pat.toList.isEmpty then s
  else ⟨replaceSubAux pat.toList rep.toList s.toList.length s.toList⟩

/-- Python `pat in s`. -/
def pyContains (s pat : String) : Bool := containsSub pat.toList s.toList

/-- Python `s.startswith(pat)`. -/
def pyStartsWith (s pat : String) : Bool := listIsPrefixOf pat.toList s.toList

/-- Python `s.lower()` (ASCII; the source data is ASCII apart from NBSP,
which `lower` leaves unchanged). -/
def pyLower (s : String) : String := ⟨s.toList.map Char.toLower⟩

/-- Python `s.strip()` (whitespace trim). -/
def pyStrip (s : String) : String :=
  ⟨((s.toList.dropWhile Char.isWhitespace).reverse.dropWhile Char.isWhitespace).reverse⟩

/-- Python `s[n:]`. -/
def pyDropChars (s : String) (n : Nat) : String := ⟨s.toList.drop n⟩

/-- Python `s[:-1]`. -/
def pyDropLast (s : String) : String := ⟨s.toList.dropLast⟩

/-- Python `s.split(":")[0]`: everything before the first colon (the whole
string when there is no colon). -/
def beforeColon (s : String) : String := ⟨s.toList.takeWhile (fun c => c != ':')⟩

/-- Python `s.split(":", 1)[1]`: everything after the first colon (used by the
source only under an `":" in s` guard). -/
def afterFirstColon (s : String) : String :=
  ⟨(s.toList.dropWhile (fun c => c != ':')).drop 1⟩

/-- Python `l[i]`, raising `IndexError` when out of range. -/
def listIdx {α : Type} (l : List α) (i : Nat) : Except String α :=
  match l.get? i with
  | some a => .ok a
  | none => .error "IndexError"

/-! ## Item classification (item.py) -/

/-- `STREAMING_SUBSCRIPTIONS` reference list of item.py. -/
def STREAMING_SUBSCRIPTIONS : List String :=
  ["max standard", "max ad-free", "hbo max ad-free", "starz"]

/-- `SOFTWARE_SUBSCRIPTIONS` reference list of item.py. -/
def SOFTWARE_SUBSCRIPTIONS : List String :=
  ["copilot: track & budget money", "bumble - dating. friends. bizz",
   "coffee meets bagel dating app", "hinge dating app: meet people",
   "noom: healthy weight loss", "paramount+", "snapchat"]

/-- `SERVICE_SUBSCRIPTIONS` reference list of item.py. -/
def SERVICE_SUBSCRIPTIONS : List String := ["family", "premier", "apple news+"]

/-- `APPLE_ONE_SUBSCRIPTION_LEVELS` reference list of item.py. -/
def APPLE_ONE_SUBSCRIPTION_LEVELS : List String := ["individual", "family", "premier"]

/-- `INDIVIDUAL_SUBSCRIPTIONS` reference list of item.py. -/
def INDIVIDUAL_SUBSCRIPTIONS : List String :=
  ["nyt games: word, number, logic", "bumble - dating. friends. bizz",
   "coffee meets bagel dating app", "hinge dating app: meet people",
   "paramount+", "snapchat"]

/-- `Item.stream_desc` (item.py line 260). -/
def stream_desc (desc : String) : String :=
  pyReplace (pyReplace (pyReplace desc " monthly" "") " (monthly)" "") " (automatic renewal)" ""

/-- `Item.srvc_desc` (item.py line 275). -/
def srvc_desc (desc : String) : String :=
  pyReplace (pyReplace (pyReplace desc " monthly" "") " (automatic renewal)" "") "\u00A0" " "

/-- One `elif` guard of `determine_item_type` of the form
`desc_len == n and test(desc_lst[i])`: Python's `and` short-circuits, so the
index is only evaluated when the length test holds. -/
def condLenIdx (lenOk : Bool) (l : List String) (i : Nat) (test : String → Bool) :
    Except String Bool :=
  if lenOk then
    match listIdx l i with
    | .error e => .error e
    | .ok s => .ok (test s)
  else .ok false

/-- One `elif` guard of `determine_item_type` of the form
`desc_len == n and test1(desc_lst[i]) and test2(desc_lst[j])`, with the same
short-circuit behaviour. -/
def condLenIdx2 (lenOk : Bool) (l : List String) (i : Nat) (test1 : String → Bool)
    (j : Nat) (test2 : String → Bool) : Except String Bool :=
  if lenOk then
    match listIdx l i with
    | .error e => .error e
    | .ok s =>
      if test1 s then
        match listIdx l j with
        | .error e => .error e
        | .ok s2 => .ok (test2 s2)
      else .ok false
  else .ok false

/-- `Item.determine_item_type` (item.py lines 277-312): the ordered
first-match-wins rule chain over the lower-cased fragment list. -/
def determine_item_type (l : List String) : Except String ItemType :=
  match condLenIdx (l.length == 4) l 2 (fun s => s == "movie rental") with
  | .error e => .error e
  | .ok true => .ok .MOVIE_RENTAL
  | .ok false =>
  match condLenIdx (l.length == 4) l 2 (fun s => s == "movie") with
  | .error e => .error e
  | .ok true => .ok .MOVIE_PURCHASE
  | .ok false =>
  match condLenIdx (l.length == 4) l 2 (fun s => s == "in-app purchase") with
  | .error e => .error e
  | .ok true => .ok .IN_APP_PURCHASE
  | .ok false =>
  match condLenIdx (l.length == 3) l 1 (fun s => s == "in-app purchase") with
  | .error e => .error e
  | .ok true => .ok .IN_APP_MOVIE_RENTAL
  | .ok false =>
  match condLenIdx2 (l.length == 3) l 2 (fun s => pyStartsWith s "renews")
      1 (fun s => STREAMING_SUBSCRIPTIONS.contains (stream_desc s)) with
  | .error e => .error e
  | .ok true => .ok .STREAMING_SUBSCRIPTION
  | .ok false =>
  match condLenIdx2 (l.length == 3) l 2 (fun s => pyStartsWith s "renews")
      0 (fun s => SOFTWARE_SUBSCRIPTIONS.contains s) with
  | .error e => .error e
  | .ok true => .ok .SOFTWARE_SUBSCRIPTION
  | .ok false =>
  match condLenIdx2 (l.length == 3) l 2 (fun s => pyStartsWith s "renews")
      0 (fun s => SERVICE_SUBSCRIPTIONS.contains (srvc_desc s)) with
  | .error e => .error e
  | .ok true => .ok .SERVICE_SUBSCRIPTION
  | .ok false =>
  match condLenIdx2 (l.length == 4) l 2 (fun s => pyStartsWith s "renews")
      0 (fun s => INDIVIDUAL_SUBSCRIPTIONS.contains s) with
  | .error e => .error e
  | .ok true => .ok .INDIVIDUAL_SUBSCRIPTION
  | .ok false => .ok .UNKNOWN

/-- `Item.determine_description_1` (item.py lines 314-354). The Python
`else: raise ValueError` arm is unreachable because the enumerated branches
cover every `ItemType`; likewise in the other derivations below. -/
def determine_description_1 (t : ItemType) (l : List String) : Except String String :=
  match t with
  | .STREAMING_SUBSCRIPTION =>
    match listIdx l 0 with
    | .error e => .error e
    | .ok d0 =>
      let sd := stream_desc d0
      if pyContains sd ":" then .ok (pyStrip (beforeColon sd))
      else if pyContains sd "apple tv" then
        match listIdx l 1 with
        | .error e => .error e
        | .ok d1 => .ok (stream_desc d1)
      else .ok sd
  | .SOFTWARE_SUBSCRIPTION | .INDIVIDUAL_SUBSCRIPTION =>
    match listIdx l 0 with
    | .error e => .error e
    | .ok d0 => if pyContains d0 ":" then .ok (pyStrip (beforeColon d0)) else .ok d0
  | .SERVICE_SUBSCRIPTION =>
    match listIdx l 0 with
    | .error e => .error e
    | .ok d0 =>
      let sd := srvc_desc d0
      if APPLE_ONE_SUBSCRIPTION_LEVELS.contains sd then .ok "apple one" else .ok sd
  | .MOVIE_RENTAL | .MOVIE_PURCHASE | .IN_APP_PURCHASE | .IN_APP_MOVIE_RENTAL | .UNKNOWN =>
    listIdx l 0

/-- `Item.determine_description_2` (item.py lines 356-395). -/
def determine_description_2 (t : ItemType) (l : List String) : Except String (Option String) :=
  match t with
  | .MOVIE_RENTAL | .MOVIE_PURCHASE | .IN_APP_PURCHASE =>
    match listIdx l 1 with
    | .error e => .error e
    | .ok d1 => .ok (some d1)
  | .STREAMING_SUBSCRIPTION =>
    match listIdx l 0 with
    | .error e => .error e
    | .ok d0 =>
      let sd := stream_desc d0
      if pyContains sd ":" then .ok (some (pyStrip (afterFirstColon sd))) else .ok none
  | .SOFTWARE_SUBSCRIPTION | .INDIVIDUAL_SUBSCRIPTION =>
    match listIdx l 0 with
    | .error e => .error e
    | .ok d0 =>
      if pyContains d0 ":" then .ok (some (pyStrip (afterFirstColon d0))) else .ok none
  | .SERVICE_SUBSCRIPTION =>
    match listIdx l 0 with
    | .error e => .error e
    | .ok d0 =>
      let sd := srvc_desc d0
      if APPLE_ONE_SUBSCRIPTION_LEVELS.contains sd then .ok (some sd) else .ok none
  | .UNKNOWN => .ok (some (String.intercalate "|" l.tail))
  | .IN_APP_MOVIE_RENTAL => .ok none

/-- `Item.determine_subscription_frequency` (item.py lines 397-440): cadence
for subscription-family types (keyword sets checked monthly, then six-month,
then annual, else the explicit UNKNOWN member), `none` for the rest. -/
def determine_subscription_frequency (t : ItemType) (l : List String) :
    Except String (Option SubscriptionFrequency) :=
  match t with
  | .STREAMING_SUBSCRIPTION | .SOFTWARE_SUBSCRIPTION
  | .SERVICE_SUBSCRIPTION | .INDIVIDUAL_SUBSCRIPTION =>
    match listIdx l 1 with
    | .error e => .error e
    | .ok d1 =>
      if ["(monthly)", "monthly"].any (fun v => pyContains d1 v) then
        .ok (some .MONTHLY)
      else if ["6 month"].any (fun v => pyContains d1 v) then
        .ok (some .SEMI_ANNUAL)
      else if ["(annual)", "(yearly)"].any (fun v => pyContains d1 v) then
        .ok (some .ANNUAL)
      else
        .ok (some .UNKNOWN)
  | .MOVIE_RENTAL | .MOVIE_PURCHASE | .IN_APP_PURCHASE
  | .IN_APP_MOVIE_RENTAL | .UNKNOWN => .ok none

/-- `Item.determine_renewal_date` (item.py lines 442-473): for the
subscription family, `dap.parse(desc_lst[2][7:]).date()` guarded by
`try/except ParserError` — modelled by the parameter `pd`. -/
def determine_renewal_date (pd : String → Option String) (t : ItemType) (l : List String) :
    Except String (Option String) :=
  match t with
  | .STREAMING_SUBSCRIPTION | .SOFTWARE_SUBSCRIPTION
  | .SERVICE_SUBSCRIPTION | .INDIVIDUAL_SUBSCRIPTION =>
    match listIdx l 2 with
    | .error e => .error e
    | .ok d2 => .ok (pd (pyDropChars d2 7))
  | .MOVIE_RENTAL | .MOVIE_PURCHASE | .IN_APP_PURCHASE
  | .IN_APP_MOVIE_RENTAL | .UNKNOWN => .ok none

/-- `Item.determine_device` (item.py lines 475-503). -/
def determine_device (t : ItemType) (l : List String) : Except String (Option String) :=
  match t with
  | .MOVIE_RENTAL | .MOVIE_PURCHASE | .IN_APP_PURCHASE | .INDIVIDUAL_SUBSCRIPTION =>
    match listIdx l 3 with
    | .error e => .error e
    | .ok d3 => .ok (some d3)
  | .IN_APP_MOVIE_RENTAL =>
    match listIdx l 2 with
    | .error e => .error e
    | .ok d2 => .ok (some d2)
  | .STREAMING_SUBSCRIPTION | .SOFTWARE_SUBSCRIPTION
  | .SERVICE_SUBSCRIPTION | .UNKNOWN => .ok none

/-- `Item.__init__` (item.py lines 175-221): lower-case the description list,
run the derivations in source order (the first raised exception aborts the
construction), and assemble the `Item` with `tax_applied` and `total_amount`
initialized to zero and `taxable` derived from the type. -/
def itemInit (pd : String → Option String) (item_category : ItemCategory)
    (description_list : List String) (purchase_amount other_amount : ℤ)
    (image_url : String) : Except String Item :=
  let l := description_list.map pyLower
  match determine_item_type l with
  | .error e => .error e
  | .ok t =>
  match determine_description_1 t l with
  | .error e => .error e
  | .ok d1 =>
  match determine_description_2 t l with
  | .error e => .error e
  | .ok d2 =>
  match determine_subscription_frequency t l with
  | .error e => .error e
  | .ok sf =>
  match determine_renewal_date pd t l with
  | .error e => .error e
  | .ok rd =>
  match determine_device t l with
  | .error e => .error e
  | .ok dev =>
    .ok { item_category := item_category,
          purchase_amount := purchase_amount,
          other_amount := other_amount,
          image_url := image_url,
          tax_applied := 0,
          total_amount := 0,
          item_type := t,
          description_1 := d1,
          description_2 := d2,
          subscription_frequency := sf,
          next_renewal_date := rd,
          device := dev,
          taxable := TAXABLE_ITEM_TYPES.contains t }

/-! ## HTML document model (BeautifulSoup, as used by the parsers)

A parsed document is a forest of nodes; an element node carries a tag name
and its direct children in document order. `soup.tag` is the first element
with that tag in pre-order over the whole tree; `find_all(t, recursive=False)`
filters the direct children; `.text` concatenates every string in the
subtree. -/

/-- A node of the parsed HTML tree. -/
inductive Node where
  | text (s : String)
  | elem (tag : String) (children : List Node)

/-- Direct children of a node (a string has none). -/
def Node.children : Node → List Node
  | .text _ => []
  | .elem _ cs => cs

/-- Whether a node is an element with the given tag. -/
def isTag (t : String) (n : Node) : Bool :=
  match n with
  | .elem tg _ => tg == t
  | .text _ => false

mutual
/-- BeautifulSoup `find(t)` at a node: the node itself when its tag is `t`,
else the first matching element among its descendants, in pre-order. -/
def Node.findTag (t : String) : Node → Option Node
  | .text _ => none
  | .elem tg cs => if tg == t then some (.elem tg cs) else findTagList t cs

/-- BeautifulSoup `find(t)` over a forest: first element with tag `t`, the
roots themselves included, in pre-order. -/
def findTagList (t : String) : List Node → Option Node
  | [] => none
  | n :: rest =>
    match Node.findTag t n with
    | some d => some d
    | none => findTagList t rest
end

mutual
/-- BeautifulSoup `.text`: concatenation of all strings in the subtree. -/
def Node.textContent : Node → String
  | .text s => s
  | .elem _ cs => textContentList cs

/-- Concatenation of all strings in a forest. -/
def textContentList : List Node → String
  | [] => ""
  | n :: rest => Node.textContent n ++ textContentList rest
end

/-! ## Layout detector (email_parsing_strategy.py) -/

/-- The two structural extractor variants. -/
inductive ParserChoice where
  | format1 | format2
deriving DecidableEq

/-- `PARSE_FMT_1_IND` sentinel constant of email_parsing_strategy.py. -/
def PARSE_FMT_1_IND : String := "receipt"

/-- `get_parser_fn` (email_parsing_strategy.py lines 45-56): probe
`soup.div.find_all("div", recursive=False)`; when `soup.div` is `None` the
attribute access raises (`AttributeError`); when the first child div's
trimmed, lower-cased text equals the sentinel, Variant A is selected,
otherwise Variant B (also when there is no child div at all, since an empty
`find_all` result is falsy). -/
def get_parser_fn (soup : List Node) : Except String ParserChoice :=
  match findTagList "div" soup with
  | none => .error "AttributeError"
  | some d =>
    match d.children.filter (isTag "div") with
    | [] => .ok .format2
    | first :: _ =>
      if pyLower (pyStrip first.textContent) == PARSE_FMT_1_IND then .ok .format1
      else .ok .format2

/-! ## Variant A extractor: field parsing and validation (parse_format_1.py) -/

/-- The `ReceiptEmail` DTO (receipt_email.py), restricted to the fields
touched by sections 1 and 3 of Variant A. -/
structure ReceiptEmailRec where
  receipt_date : Option String
  order_id : String
  doc_nbr : String
  apple_account : String
  subtotal : ℤ
  tax : ℤ
  card : Option String
  total : ℤ
deriving DecidableEq

/-- `FIELD_ATTR_SECTION_1` mapping of parse_format_1.py. -/
def FIELD_ATTR_SECTION_1 : List (String × String) :=
  [("order id", "order_id"), ("document", "doc_nbr"), ("apple account", "apple_account")]

/-- `FIELD_ATTR_SECTION_3` mapping of parse_format_1.py. -/
def FIELD_ATTR_SECTION_3 : List (String × String) :=
  [("subtotal", "subtotal"), ("tax", "tax")]

/-- Python `dict(pairs).get(k, d)`: the value of the last pair with key `k`,
or the default. -/
def dictGet (pairs : List (String × String)) (k d : String) : String :=
  (pairs.reverse.lookup k).getD d

/-- `ParseFormat1.parse_date` (parse_format_1.py lines 233-243): strip, then
best-effort date parse (the external `dap.parse(...).date()` with its
`try/except` is the parameter `pd`). -/
def parse_date (pd : String → Option String) (date_str : String) : Option String :=
  pd (pyStrip date_str)

/-- `ParseFormat1.parse_decimal` (parse_format_1.py lines 245-252): strip one
leading dollar sign, parse the remainder (empty string counts as zero); the
`Decimal` string constructor is the parameter `decP`. -/
def parse_decimal (decP : String → Except String ℤ) (value_str : String) : Except String ℤ :=
  let v := if pyStartsWith value_str "$" then pyDropChars value_str 1 else value_str
  decP (if v == "" then "0.00" else v)

/-- `ParseFormat1.parse_sect_1_fields` (parse_format_1.py lines 191-204): for
each direct child div, take the stripped texts of its direct `<p>` children;
the first (lower-cased, last character dropped) is the field name and the
second the value (`IndexError` when a pair is missing). -/
def parseSect1Pairs : List Node → Except String (List (String × String))
  | [] => .ok []
  | divTag :: rest =>
    let p_tags := (divTag.children.filter (isTag "p")).map (fun p => pyStrip p.textContent)
    match listIdx p_tags 0 with
    | .error e => .error e
    | .ok p0 =>
    match listIdx p_tags 1 with
    | .error e => .error e
    | .ok p1 =>
    match parseSect1Pairs rest with
    | .error e => .error e
    | .ok tail => .ok ((pyDropLast (pyLower p0), p1) :: tail)

/-- `ParseFormat1.set_sect_1_attribs` (parse_format_1.py lines 213-222):
closed-world validation of the parsed field names against
`FIELD_ATTR_SECTION_1` (unknown labels raise `ValueError`), then assignment
of each mapped attribute with `""` as default. -/
def setSect1Attribs (fnv : List (String × String)) (re : ReceiptEmailRec) :
    Except String ReceiptEmailRec :=
  let invalid := (fnv.map Prod.fst).filter
    (fun k => !((FIELD_ATTR_SECTION_1.map Prod.fst).contains k))
  if invalid ≠ [] then
    .error "ValueError: section 1 - one or more undefined attributes"
  else
    .ok { re with order_id := dictGet fnv "order id" "",
                  doc_nbr := dictGet fnv "document" "",
                  apple_account := dictGet fnv "apple account" "" }

/-- `ParseFormat1.set_sect_3_attribs` (parse_format_1.py lines 224-231): the
same closed-world validation against `FIELD_ATTR_SECTION_3`, then assignment
of the parsed decimal values with `"$0.00"` as default. -/
def setSect3Attribs (decP : String → Except String ℤ) (fnv : List (String × String))
    (re : ReceiptEmailRec) : Except String ReceiptEmailRec :=
  let invalid := (fnv.map Prod.fst).filter
    (fun k => !((FIELD_ATTR_SECTION_3.map Prod.fst).contains k))
  if invalid ≠ [] then
    .error "ValueError: section 3 - one or more undefined attributes"
  else
    match parse_decimal decP (dictGet fnv "subtotal" "$0.00") with
    | .error e => .error e
    | .ok sub =>
    match parse_decimal decP (dictGet fnv "tax" "$0.00") with
    | .error e => .error e
    | .ok tx => .ok { re with subtotal := sub, tax := tx }

/-- `ParseFormat1.process_section_1` (parse_format_1.py lines 83-102): the
receipt date from the first `<p>` descendant (`AttributeError` when absent),
then the header fields, parsed and validated. -/
def processSection1 (pd : String → Option String) (sec : Node) (re : ReceiptEmailRec) :
    Except String ReceiptEmailRec :=
  match findTagList "p" sec.children with
  | none => .error "AttributeError"
  | some pTag =>
    match parseSect1Pairs (sec.children.filter (isTag "div")) with
    | .error e => .error e
    | .ok fnv =>
      setSect1Attribs fnv { re with receipt_date := parse_date pd pTag.textContent }

/-- `ParseFormat1.parse_sect_3_fields` (parse_format_1.py lines 206-211):
zip the stripped lower-cased texts of the direct `<p>` children of
`div_tag.div` with the stripped texts of its direct `<div>` children. -/
def parseSect3Fields (divTag : Node) : Except String (List (String × String)) :=
  match findTagList "div" divTag.children with
  | none => .error "AttributeError"
  | some inner =>
    let field_names := (inner.children.filter (isTag "p")).map
      (fun t => pyLower (pyStrip t.textContent))
    let field_values := (inner.children.filter (isTag "div")).map
      (fun t => pyStrip t.textContent)
    .ok (List.zip field_names field_values)

/-- The second direct child div of `section.div` (parse_format_1.py line
181), whose fields section 3 reads. -/
def sect3DivTag (sec : Node) : Except String Node :=
  match findTagList "div" sec.children with
  | none => .error "AttributeError"
  | some secDiv => listIdx (secDiv.children.filter (isTag "div")) 1

/-- `ParseFormat1.process_section_3` (parse_format_1.py lines 151-189):
subtotal and tax (validated against the section-3 mapping), then the card
label and the receipt total. -/
def processSection3 (decP : String → Except String ℤ) (sec : Node) (re : ReceiptEmailRec) :
    Except String ReceiptEmailRec :=
  match sect3DivTag sec with
  | .error e => .error e
  | .ok divTag =>
    match parseSect3Fields divTag with
    | .error e => .error e
    | .ok fnv =>
      match setSect3Attribs decP fnv re with
      | .error e => .error e
      | .ok re1 =>
        match listIdx (divTag.children.filter (isTag "p")) 0 with
        | .error e => .error e
        | .ok cardTag =>
          match listIdx (divTag.children.filter (isTag "div")) 1 with
          | .error e => .error e
          | .ok totalTag =>
            match parse_decimal decP (pyStrip totalTag.textContent) with
            | .error e => .error e
            | .ok tot =>
              .ok { re1 with card := some (pyStrip cardTag.textContent), total := tot }

/-! ## Lemmas about the tax reconciliation engine -/

theorem apply_tax_fst_tax_applied (it : Item) (rate : ℤ) :
    ((it.apply_tax rate).1).tax_applied = (it.apply_tax rate).2 := rfl

theorem apply_tax_fst_total (it : Item) (rate : ℤ) :
    ((it.apply_tax rate).1).total_amount
      = ((it.apply_tax rate).1).purchase_amount + ((it.apply_tax rate).1).tax_applied := rfl

theorem sum_tax_applied_map_fst (pairs : List (Item × ℤ))
    (h : ∀ pr ∈ pairs, (pr.1).tax_applied = pr.2) :
    ((pairs.map Prod.fst).map Item.tax_applied).sum = (pairs.map Prod.snd).sum := by
  induction pairs with
  | nil => simp
  | cons pr rest ih =>
    simp only [List.map_cons, List.sum_cons, List.mem_cons] at *
    rw [h pr (Or.inl rfl), ih (fun q hq => h q (Or.inr hq))]

theorem firstMatchIdx_lt_length {α : Type} {p : α → Bool} {l : List α} {i : Nat}
    (h : firstMatchIdx p l = some i) : i < l.length := by
  induction l generalizing i with
  | nil => simp [firstMatchIdx] at h
  | cons a rest ih =>
    by_cases hp : p a
    · have h' : some 0 = some i := by simpa [firstMatchIdx, hp] using h
      simp only [Option.some.injEq] at h'
      simp only [List.length_cons]
      omega
    · have h' : (firstMatchIdx p rest).map (· + 1) = some i := by
        simpa [firstMatchIdx, hp] using h
      rcases Option.map_eq_some'.mp h' with ⟨i', hi', hii⟩
      have := ih hi'
      simp only [List.length_cons]
      omega

theorem adjustAt_sum (l : List Item) (i : Nat) (a : ℤ) (h : i < l.length) :
    ((adjustAt l i a).map Item.tax_applied).sum = (l.map Item.tax_applied).sum + a := by
  induction l generalizing i with
  | nil => simp at h
  | cons it rest ih =>
    cases i with
    | zero =>
      simp [adjustAt, Item.adjust_tax]
      ring
    | succ n =>
      simp only [adjustAt, List.map_cons, List.sum_cons]
      rw [ih n (by simpa using h)]
      ring

theorem adjustAt_mem {P : Item → Prop} (hP : ∀ it a, P it → P (it.adjust_tax a)) :
    ∀ (l : List Item) (i : Nat) (a : ℤ), (∀ it ∈ l, P it) → ∀ it ∈ adjustAt l i a, P it := by
  intro l
  induction l with
  | nil => intro i a _ it hit; simp [adjustAt] at hit
  | cons x rest ih =>
    intro i a hall it hit
    cases i with
    | zero =>
      simp only [adjustAt, List.mem_cons] at hit
      rcases hit with rfl | hit
      · exact hP x a (hall x (by simp))
      · exact hall it (by simp [hit])
    | succ n =>
      simp only [adjustAt, List.mem_cons] at hit
      rcases hit with rfl | hit
      · exact hall _ (by simp)
      · exact ih n a (fun y hy => hall y (by simp [hy])) it hit

theorem reconNewItems_sum_and_totals (tax : ℤ) (items l2 : List Item)
    (h : reconNewItems tax items = .ok l2) :
    (l2.map Item.tax_applied).sum = tax
      ∧ ∀ it ∈ l2, it.total_amount = it.purchase_amount + it.tax_applied := by
  have hpairs : ∀ pr ∈ items.map (fun it => it.apply_tax Receipt.tax_rate),
      (pr.1).tax_applied = pr.2 := by
    intro pr hpr
    rcases List.mem_map.mp hpr with ⟨it, _, rfl⟩
    rfl
  have hsum := sum_tax_applied_map_fst _ hpairs
  have htot : ∀ it2 ∈ (items.map (fun it => it.apply_tax Receipt.tax_rate)).map Prod.fst,
      it2.total_amount = it2.purchase_amount + it2.tax_applied := by
    intro it2 h2
    rcases List.mem_map.mp h2 with ⟨pr, hpr, rfl⟩
    rcases List.mem_map.mp hpr with ⟨it, _, rfl⟩
    rfl
  have hPadj : ∀ (it : Item) (a : ℤ),
      it.total_amount = it.purchase_amount + it.tax_applied →
      (it.adjust_tax a).total_amount = (it.adjust_tax a).purchase_amount + (it.adjust_tax a).tax_applied := by
    intro it a hit
    simp [Item.adjust_tax, hit]
    ring
  simp only [reconNewItems] at h
  split at h
  · -- single-item attribution branch
    rename_i hc
    split at h
    · exact absurd h (by simp)
    · rename_i i hfind
      have hlen : i < ((items.map (fun it => it.apply_tax Receipt.tax_rate)).map Prod.fst).length := by
        have := firstMatchIdx_lt_length hfind
        simpa using this
      simp only [Except.ok.injEq] at h
      subst h
      refine ⟨?_, adjustAt_mem hPadj _ i tax htot⟩
      rw [adjustAt_sum _ i tax hlen, hsum, hc.2]
      ring
  · -- rounding-drift branch
    rename_i hc
    split at h
    · rename_i hadj
      split at h
      · exact absurd h (by simp)
      · rename_i i hfind
        split at h
        · exact absurd h (by simp)
        · have hlen : i < ((items.map (fun it => it.apply_tax Receipt.tax_rate)).map Prod.fst).length := by
            have := firstMatchIdx_lt_length hfind
            simpa using this
          simp only [Except.ok.injEq] at h
          subst h
          refine ⟨?_, adjustAt_mem hPadj _ i _ htot⟩
          rw [adjustAt_sum _ i _ hlen, hsum]
          ring
    · rename_i hadj
      simp only [Except.ok.injEq] at h
      subst h
      rw [hsum]
      have : tax - ((items.map (fun it => it.apply_tax Receipt.tax_rate)).map Prod.snd).sum = 0 := by
        by_contra hne
        exact hadj hne
      refine ⟨by linarith, htot⟩

theorem applyTaxToItems_ok_iff (r : Receipt) (r' : Receipt) :
    applyTaxToItems r = .ok r' ↔
      ∃ items2, reconNewItems r.tax r.items = .ok items2 ∧
        r' = { r with items := items2,
                      subtotal := if r.subtotal ≠ 0 then r.subtotal else r.total - r.tax } := by
  cases hrec : reconNewItems r.tax r.items with
  | error e =>
    simp [applyTaxToItems, hrec]
  | ok items2 =>
    simp only [applyTaxToItems, hrec, Except.ok.injEq]
    constructor
    · intro h
      exact ⟨items2, rfl, h.symm⟩
    · rintro ⟨i2, hi2, rfl⟩
      rw [hi2]

theorem applyTaxToItems_error (r : Receipt) (e : String)
    (h : reconNewItems r.tax r.items = .error e) : applyTaxToItems r = .error e := by
  simp [applyTaxToItems, h]

/-- A concrete item for witness receipts; the reconciliation engine reads only
the taxability flag and the purchase amount. -/
def testItem (tb : Bool) (pa : ℤ) : Item :=
  { item_category := .NONE, purchase_amount := pa, other_amount := 0, image_url := "",
    tax_applied := 0, total_amount := 0, item_type := .UNKNOWN, description_1 := "",
    description_2 := none, subscription_frequency := none, next_renewal_date := none,
    device := none, taxable := tb }

/-- C1: for every receipt with at least one item, if `Receipt.apply_tax_to_items`
completes without raising, then the sum of `tax_applied` over all items equals
the receipt's authoritative tax exactly, and each item's `total_amount` equals
its `purchase_amount` plus its `tax_applied`. -/
theorem c1_tax_reconciliation_invariant (r r' : Receipt)
    (hne : r.items ≠ []) (h : applyTaxToItems r = .ok r') :
    (r'.items.map Item.tax_applied).sum = r.tax
      ∧ ∀ it ∈ r'.items, it.total_amount = it.purchase_amount + it.tax_applied := by
  rcases (applyTaxToItems_ok_iff r r').mp h with ⟨items2, hrec, rfl⟩
  simpa using reconNewItems_sum_and_totals r.tax r.items items2 hrec

/-- Input receipt of the spec's four-item scenario (amounts 15.00 non-taxable
and 10.00, 25.00, 25.00 taxable; authoritative tax 4.80). -/
def c1ReceiptIn : Receipt :=
  { subtotal := 5000, tax := 480, total := 5280,
    items := [testItem false 1500, testItem true 1000,
              testItem true 2500, testItem true 2500] }

/-- Reconciled form of `c1ReceiptIn` (per-item tax 0.00/0.80/2.00/2.00). -/
def c1ReceiptOut : Receipt :=
  { c1ReceiptIn with
    items := [{ testItem false 1500 with total_amount := 1500 },
              { testItem true 1000 with tax_applied := 80, total_amount := 1080 },
              { testItem true 2500 with tax_applied := 200, total_amount := 2700 },
              { testItem true 2500 with tax_applied := 200, total_amount := 2700 }] }

/-- Witness for C1: the invariant holds at the concrete four-item scenario. -/
theorem c1_tax_reconciliation_invariant_witness :
    c1ReceiptIn.items ≠ [] ∧ applyTaxToItems c1ReceiptIn = .ok c1ReceiptOut ∧
      ((c1ReceiptOut.items.map Item.tax_applied).sum = c1ReceiptIn.tax
        ∧ ∀ it ∈ c1ReceiptOut.items, it.total_amount = it.purchase_amount + it.tax_applied) :=
  ⟨by decide, by decide,
    c1_tax_reconciliation_invariant c1ReceiptIn c1ReceiptOut (by decide) (by decide)⟩

/-! ## Lemmas for the single-item attribution branch (claim C2) -/

/-- `items_tax_calc_ovrd` of receipt.py line 157: every item's tax recomputed
ignoring the taxability flag. -/
def recomputedTaxes (r : Receipt) : List ℤ :=
  r.items.map (fun it => it.calc_tax Receipt.tax_rate)

theorem firstMatchIdx_eq_none {α : Type} {p : α → Bool} {l : List α}
    (h : ∀ a ∈ l, p a = false) : firstMatchIdx p l = none := by
  induction l with
  | nil => rfl
  | cons a rest ih =>
    simp [firstMatchIdx, h a (by simp), ih (fun b hb => h b (by simp [hb]))]

theorem firstMatchIdx_unique {α : Type} {p : α → Bool} {l : List α} {i : Nat}
    (hi : ∃ a, l.get? i = some a ∧ p a = true)
    (hu : ∀ j a, l.get? j = some a → p a = true → j = i) :
    firstMatchIdx p l = some i := by
  induction l generalizing i with
  | nil => obtain ⟨a, ha, _⟩ := hi; simp at ha
  | cons x rest ih =>
    by_cases hp : p x
    · have h0 : (0 : Nat) = i := hu 0 x rfl hp
      simp [firstMatchIdx, hp, h0]
    · cases i with
      | zero =>
        obtain ⟨a, ha, hpa⟩ := hi
        simp only [List.get?] at ha
        cases ha
        exact absurd hpa hp
      | succ n =>
        have hrest : firstMatchIdx p rest = some n := by
          apply ih
          · obtain ⟨a, ha, hpa⟩ := hi
            exact ⟨a, by simpa using ha, hpa⟩
          · intro j a hj hpa
            have := hu (j + 1) a (by simpa using hj) hpa
            omega
        simp [firstMatchIdx, hp, hrest]

theorem adjustAt_get? (l : List Item) (i j : Nat) (a : ℤ) :
    (adjustAt l i a).get? j
      = if j = i then (l.get? j).map (fun it => it.adjust_tax a) else l.get? j := by
  induction l generalizing i j with
  | nil => simp [adjustAt]
  | cons x rest ih =>
    cases i with
    | zero =>
      cases j with
      | zero => simp [adjustAt]
      | succ m => simp [adjustAt]
    | succ n =>
      cases j with
      | zero => simp [adjustAt]
      | succ m =>
        simp only [adjustAt, List.get?]
        rw [ih n m]
        by_cases hmn : m = n
        · simp [hmn]
        · simp [hmn, fun h => hmn (Nat.succ_injective h)]

theorem map_calc_items1 (items : List Item) :
    ((items.map (fun it => it.apply_tax Receipt.tax_rate)).map Prod.fst).map
        (fun it => it.calc_tax Receipt.tax_rate)
      = items.map (fun it => it.calc_tax Receipt.tax_rate) := by
  simp only [List.map_map]
  rfl

theorem computed_zero_of_not_taxable {items : List Item}
    (hflag : ∀ it ∈ items, it.taxable = false) :
    ∀ q ∈ (items.map (fun it => it.apply_tax Receipt.tax_rate)).map Prod.snd, q = 0 := by
  intro q hq
  rcases List.mem_map.mp hq with ⟨pr, hpr, rfl⟩
  rcases List.mem_map.mp hpr with ⟨it, hit, rfl⟩
  simp [Item.apply_tax, hflag it hit]

theorem items1_applied_zero {items : List Item}
    (hflag : ∀ it ∈ items, it.taxable = false) :
    ∀ it1 ∈ (items.map (fun it => it.apply_tax Receipt.tax_rate)).map Prod.fst,
      it1.tax_applied = 0 := by
  intro it1 h1
  rcases List.mem_map.mp h1 with ⟨pr, hpr, rfl⟩
  rcases List.mem_map.mp hpr with ⟨it, hit, rfl⟩
  simp [Item.apply_tax, hflag it hit]

theorem reconNewItems_override (tax : ℤ) (items : List Item) (h1 : tax ≠ 0)
    (h2 : ((items.map (fun it => it.apply_tax Receipt.tax_rate)).map Prod.snd).sum = 0) :
    reconNewItems tax items =
      match firstMatchIdx (fun t => t == tax)
          (items.map (fun it => it.calc_tax Receipt.tax_rate)) with
      | none => .error "ValueError: none of the items are marked as taxable and no one item accounts for the entire tax amount"
      | some i => .ok (adjustAt ((items.map (fun it => it.apply_tax Receipt.tax_rate)).map Prod.fst) i tax) := by
  simp only [reconNewItems]
  rw [if_pos ⟨h1, h2⟩, map_calc_items1]

/-- C2: for every receipt whose authoritative tax is nonzero while no item is
flagged taxable (so the per-item computed tax sums to zero), reconciliation
recomputes each item's tax ignoring the taxability flag; when no item's
recomputed tax equals the authoritative tax it raises the reconciliation
`ValueError`, and when exactly one item (index `i`) matches, that item alone
receives the entire authoritative tax. -/
theorem c2_single_item_attribution (r : Receipt) (i : Nat)
    (htax : r.tax ≠ 0)
    (hflag : ∀ it ∈ r.items, it.taxable = false) :
    ((∀ q ∈ recomputedTaxes r, q ≠ r.tax) →
        applyTaxToItems r = .error "ValueError: none of the items are marked as taxable and no one item accounts for the entire tax amount")
    ∧ (((recomputedTaxes r).get? i = some r.tax
          ∧ ∀ j q, (recomputedTaxes r).get? j = some q → q = r.tax → j = i) →
        ∃ r', applyTaxToItems r = .ok r' ∧
          ∀ j it, r'.items.get? j = some it →
            it.tax_applied = if j = i then r.tax else 0) := by
  have hsum0 : ((r.items.map (fun it => it.apply_tax Receipt.tax_rate)).map Prod.snd).sum = 0 :=
    List.sum_eq_zero (computed_zero_of_not_taxable hflag)
  have hbranch := reconNewItems_override r.tax r.items htax hsum0
  constructor
  · intro hnone
    apply applyTaxToItems_error
    have hfi : firstMatchIdx (fun t => t == r.tax)
        (r.items.map (fun it => it.calc_tax Receipt.tax_rate)) = none := by
      apply firstMatchIdx_eq_none
      intro a ha
      have : a ≠ r.tax := hnone a (by simpa [recomputedTaxes] using ha)
      simpa using this
    rw [hbranch, hfi]
  · rintro ⟨hi, hu⟩
    simp only [recomputedTaxes] at hi hu
    have hfi : firstMatchIdx (fun t => t == r.tax)
        (r.items.map (fun it => it.calc_tax Receipt.tax_rate)) = some i := by
      apply firstMatchIdx_unique
      · exact ⟨r.tax, hi, by simp⟩
      · intro j a hj hpa
        exact hu j a hj (by simpa using hpa)
    have hrec : reconNewItems r.tax r.items
        = .ok (adjustAt ((r.items.map (fun it => it.apply_tax Receipt.tax_rate)).map Prod.fst) i r.tax) := by
      rw [hbranch, hfi]
    refine ⟨_, (applyTaxToItems_ok_iff r _).mpr ⟨_, hrec, rfl⟩, ?_⟩
    intro j it hjit
    have hlen : i < r.items.length := by
      have := List.get?_eq_some.mp hi
      simpa using this.1
    simp only [adjustAt_get?] at hjit
    by_cases hji : j = i
    · subst hji
      rw [if_pos rfl] at hjit
      rcases Option.map_eq_some'.mp hjit with ⟨it0, hit0, rfl⟩
      have h0 : it0.tax_applied = 0 :=
        items1_applied_zero hflag it0 (List.get?_mem hit0)
      simp [Item.adjust_tax, h0]
    · rw [if_neg hji] at hjit
      have h0 : it.tax_applied = 0 :=
        items1_applied_zero hflag it (List.get?_mem hjit)
      simp [hji, h0]

/-- Input receipt for the C2 witness: tax 0.08 charged, single non-taxable
item of 1.00 whose recomputed tax is exactly 0.08. -/
def c2Receipt : Receipt :=
  { subtotal := 0, tax := 8, total := 108, items := [testItem false 100] }

/-- Witness for C2: the single matching item receives the entire tax. -/
theorem c2_single_item_attribution_witness :
    ∃ r', applyTaxToItems c2Receipt = .ok r' ∧
      ∀ j it, r'.items.get? j = some it →
        it.tax_applied = if j = 0 then c2Receipt.tax else 0 :=
  (c2_single_item_attribution c2Receipt 0 (by decide) (by decide)).2
    ⟨by decide, by
      intro j q hj hq
      cases j with
      | zero => rfl
      | succ n => simp [recomputedTaxes, c2Receipt, List.get?] at hj⟩

/-! ## Lemmas for the rounding-drift branch (claim C3) -/

/-- `items_tax_calc` of receipt.py line 152: the per-item computed taxes (the
values returned by `Item.apply_tax`). -/
def computedTaxes (r : Receipt) : List ℤ :=
  (r.items.map (fun it => it.apply_tax Receipt.tax_rate)).map Prod.snd

theorem reconNewItems_drift (tax : ℤ) (items : List Item)
    (hc : ¬(tax ≠ 0 ∧ ((items.map (fun it => it.apply_tax Receipt.tax_rate)).map Prod.snd).sum = 0))
    (hadj : tax - ((items.map (fun it => it.apply_tax Receipt.tax_rate)).map Prod.snd).sum ≠ 0) :
    reconNewItems tax items =
      match firstMatchIdx (fun t => t != 0)
          ((items.map (fun it => it.apply_tax Receipt.tax_rate)).map Prod.snd) with
      | none => .error "ValueError: could not determine which item to apply the tax adjustment to"
      | some i =>
        if |tax - ((items.map (fun it => it.apply_tax Receipt.tax_rate)).map Prod.snd).sum| > 4
            ∧ ((items.map (fun it => it.apply_tax Receipt.tax_rate)).map Prod.snd).countP (fun t => t != 0) > 1 then
          .error "ValueError: a significant tax adjustment is required and the number of taxable items is greater than one"
        else
          .ok (adjustAt ((items.map (fun it => it.apply_tax Receipt.tax_rate)).map Prod.fst) i
            (tax - ((items.map (fun it => it.apply_tax Receipt.tax_rate)).map Prod.snd).sum)) := by
  simp only [reconNewItems]
  rw [if_neg hc, if_pos hadj]

/-- C3 (amended): for every receipt outside the zero-computed-tax fallback
case whose drift (authoritative tax minus the sum of computed per-item tax)
is nonzero: some item necessarily has nonzero computed tax (so the
no-item-to-adjust failure cannot occur); when the drift's magnitude exceeds
0.04 and more than one item has nonzero computed tax, reconciliation raises
the `ValueError`; otherwise it applies the whole drift as a signed adjustment
to the first item, in list order, whose computed tax is nonzero. -/
theorem c3_drift_adjustment (r : Receipt) (i : Nat)
    (hnb : r.tax = 0 ∨ (computedTaxes r).sum ≠ 0)
    (hd : r.tax - (computedTaxes r).sum ≠ 0) :
    (∃ q ∈ computedTaxes r, q ≠ 0)
    ∧ (firstMatchIdx (fun t => t != 0) (computedTaxes r) = some i →
        ((|r.tax - (computedTaxes r).sum| > 4
            ∧ (computedTaxes r).countP (fun t => t != 0) > 1) →
          applyTaxToItems r = .error "ValueError: a significant tax adjustment is required and the number of taxable items is greater than one")
        ∧ (¬(|r.tax - (computedTaxes r).sum| > 4
            ∧ (computedTaxes r).countP (fun t => t != 0) > 1) →
          ∃ r', applyTaxToItems r = .ok r' ∧
            r'.items = adjustAt
              ((r.items.map (fun it => it.apply_tax Receipt.tax_rate)).map Prod.fst) i
              (r.tax - (computedTaxes r).sum))) := by
  have hc : ¬(r.tax ≠ 0
      ∧ ((r.items.map (fun it => it.apply_tax Receipt.tax_rate)).map Prod.snd).sum = 0) := by
    rcases hnb with h0 | hs
    · rintro ⟨h1, _⟩; exact h1 h0
    · rintro ⟨_, h2⟩; exact hs h2
  have hdr := reconNewItems_drift r.tax r.items hc (by simpa [computedTaxes] using hd)
  constructor
  · by_contra hall
    push_neg at hall
    have hz : (computedTaxes r).sum = 0 := List.sum_eq_zero hall
    rcases hnb with h0 | hs
    · exact hd (by rw [h0, hz]; ring)
    · exact hs hz
  · intro hfi
    simp only [computedTaxes] at hfi
    rw [hfi] at hdr
    dsimp only at hdr
    constructor
    · intro hth
      apply applyTaxToItems_error
      rw [hdr, if_pos (by simpa [computedTaxes] using hth)]
    · intro hth
      have hrec : reconNewItems r.tax r.items
          = .ok (adjustAt ((r.items.map (fun it => it.apply_tax Receipt.tax_rate)).map Prod.fst) i
              (r.tax - ((r.items.map (fun it => it.apply_tax Receipt.tax_rate)).map Prod.snd).sum)) := by
        rw [hdr, if_neg (by simpa [computedTaxes] using hth)]
      refine ⟨_, (applyTaxToItems_ok_iff r _).mpr ⟨_, hrec, rfl⟩, ?_⟩
      simp [computedTaxes]

/-- Receipt with two taxable items (10.00 and 20.00) and authoritative tax
2.41: computed taxes 0.80 and 1.60, drift 0.01 within the threshold. -/
def c3Receipt : Receipt :=
  { subtotal := 0, tax := 241, total := 500,
    items := [testItem true 1000, testItem true 2000] }

/-- Witness for the amended C3: the 0.01 drift goes to the first item with
nonzero computed tax. -/
theorem c3_drift_adjustment_witness :
    ∃ r', applyTaxToItems c3Receipt = .ok r' ∧
      r'.items = adjustAt
        ((c3Receipt.items.map (fun it => it.apply_tax Receipt.tax_rate)).map Prod.fst) 0
        (c3Receipt.tax - (computedTaxes c3Receipt).sum) :=
  ((c3_drift_adjustment c3Receipt 0 (by decide) (by decide)).2 (by decide)).2 (by decide)

/-- Receipt with nonzero tax (0.08) and a single non-taxable item of 1.00:
the drift equals 0.08 and no item has nonzero computed tax. -/
def c3FallbackReceipt : Receipt :=
  { subtotal := 0, tax := 8, total := 108, items := [testItem false 100] }

/-- Reconciled form of `c3FallbackReceipt`: the fallback assigns the whole
tax to the single item whose recomputed tax matches. -/
def c3FallbackOut : Receipt :=
  { subtotal := 100, tax := 8, total := 108,
    items := [{ testItem false 100 with tax_applied := 8, total_amount := 108 }] }

/-- Counterexample to C3 as stated: a receipt whose drift is nonzero while no
item has nonzero computed tax, for which the claim predicts a raised failure,
yet `apply_tax_to_items` returns normally (the zero-computed-tax fallback
assigns the tax to the matching item instead). -/
theorem c3_counterexample :
    (c3FallbackReceipt.tax - (computedTaxes c3FallbackReceipt).sum ≠ 0)
    ∧ (∀ q ∈ computedTaxes c3FallbackReceipt, q = 0)
    ∧ applyTaxToItems c3FallbackReceipt = .ok c3FallbackOut :=
  ⟨by decide, by decide, by decide⟩

/-! ## Idempotence of reconciliation (claim C4) -/

theorem apply_tax_adjust_tax (it : Item) (a : ℤ) (rate : ℤ) :
    (it.adjust_tax a).apply_tax rate = it.apply_tax rate := rfl

theorem map_apply_adjustAt (l : List Item) (i : Nat) (a : ℤ) :
    (adjustAt l i a).map (fun it => it.apply_tax Receipt.tax_rate)
      = l.map (fun it => it.apply_tax Receipt.tax_rate) := by
  induction l generalizing i with
  | nil => rfl
  | cons x rest ih =>
    cases i with
    | zero => simp [adjustAt, apply_tax_adjust_tax]
    | succ n => simp [adjustAt, ih n]

theorem map_apply_items1 (items : List Item) :
    ((items.map (fun it => it.apply_tax Receipt.tax_rate)).map Prod.fst).map
        (fun it => it.apply_tax Receipt.tax_rate)
      = items.map (fun it => it.apply_tax Receipt.tax_rate) := by
  simp only [List.map_map]
  rfl

theorem reconNewItems_congr (tax : ℤ) {l l' : List Item}
    (h : l.map (fun it => it.apply_tax Receipt.tax_rate)
      = l'.map (fun it => it.apply_tax Receipt.tax_rate)) :
    reconNewItems tax l = reconNewItems tax l' := by
  simp only [reconNewItems]
  rw [h]

theorem reconNewItems_map_apply (tax : ℤ) (items l2 : List Item)
    (h : reconNewItems tax items = .ok l2) :
    l2.map (fun it => it.apply_tax Receipt.tax_rate)
      = items.map (fun it => it.apply_tax Receipt.tax_rate) := by
  simp only [reconNewItems] at h
  split at h
  · split at h
    · exact absurd h (by simp)
    · simp only [Except.ok.injEq] at h
      subst h
      rw [map_apply_adjustAt, map_apply_items1]
  · split at h
    · split at h
      · exact absurd h (by simp)
      · split at h
        · exact absurd h (by simp)
        · simp only [Except.ok.injEq] at h
          subst h
          rw [map_apply_adjustAt, map_apply_items1]
    · simp only [Except.ok.injEq] at h
      subst h
      exact map_apply_items1 items

theorem reconNewItems_idem (tax : ℤ) (items l2 : List Item)
    (h : reconNewItems tax items = .ok l2) : reconNewItems tax l2 = .ok l2 := by
  rw [reconNewItems_congr tax (reconNewItems_map_apply tax items l2 h)]
  exact h

/-- C4 (amended): tax reconciliation is idempotent as implemented. Whenever
`Receipt.apply_tax_to_items` completes without raising, running it a second
time — with the items entering that second run carrying their reconciled
(possibly nonzero) `tax_applied` — reproduces exactly the same final state,
because `Item.apply_tax` resets `tax_applied` to zero before recomputing;
no receipt double-applies tax. -/
theorem c4_reconciliation_idempotent (r r' : Receipt)
    (h : applyTaxToItems r = .ok r') : applyTaxToItems r' = .ok r' := by
  rcases (applyTaxToItems_ok_iff r r').mp h with ⟨items2, hrec, rfl⟩
  apply (applyTaxToItems_ok_iff _ _).mpr
  refine ⟨items2, reconNewItems_idem r.tax r.items items2 hrec, ?_⟩
  congr 1
  dsimp only
  by_cases h1 : r.subtotal ≠ 0
  · simp [h1]
  · by_cases h2 : r.total - r.tax ≠ 0 <;> simp [h1, h2]

/-- Receipt for the C4 witness (drift case: tax 2.41 against computed 2.40). -/
def c4Receipt : Receipt :=
  { subtotal := 5000, tax := 241, total := 5241,
    items := [testItem false 1500, testItem true 1000, testItem true 2000] }

/-- Reconciled form of `c4Receipt`. -/
def c4ReceiptOut : Receipt :=
  { subtotal := 5000, tax := 241, total := 5241,
    items := [{ testItem false 1500 with total_amount := 1500 },
              { testItem true 1000 with tax_applied := 81, total_amount := 1081 },
              { testItem true 2000 with tax_applied := 160, total_amount := 2160 }] }

/-- Witness for the amended C4: a second run reproduces the first run's
state. -/
theorem c4_reconciliation_idempotent_witness :
    applyTaxToItems c4Receipt = .ok c4ReceiptOut
      ∧ applyTaxToItems c4ReceiptOut = .ok c4ReceiptOut :=
  ⟨by decide, c4_reconciliation_idempotent c4Receipt c4ReceiptOut (by decide)⟩

/-- Receipt whose reconciled items carry nonzero tax (single taxable item). -/
def c4FullTaxReceipt : Receipt :=
  { subtotal := 0, tax := 8, total := 108, items := [testItem true 100] }

/-- Reconciled form of `c4FullTaxReceipt`. -/
def c4FullTaxOut : Receipt :=
  { subtotal := 100, tax := 8, total := 108,
    items := [{ testItem true 100 with tax_applied := 8, total_amount := 108 }] }

/-- Counterexample to C4 as stated: after a successful run the item enters
the second run with nonzero `tax_applied`, and the claim predicts the second
run double-applies tax and ends in a different state; instead the second run
returns exactly the same state. -/
theorem c4_counterexample :
    applyTaxToItems c4FullTaxReceipt = .ok c4FullTaxOut
    ∧ (∃ it ∈ c4FullTaxOut.items, it.tax_applied ≠ 0)
    ∧ applyTaxToItems c4FullTaxOut = .ok c4FullTaxOut :=
  ⟨by decide, by decide, by decide⟩

/-! ## Layout detection (claim C5) -/

/-- C5 (amended): the detector fails with a structural error exactly when the
document contains no container (`div`) element at all; when a container
exists, it selects Variant A iff the container's first first-level child div
has trimmed, case-folded text equal to the sentinel, and Variant B otherwise —
including when the container has no first-level child div, which selects
Variant B rather than failing. -/
theorem c5_layout_detector (soup : List Node) :
    ((∃ e, get_parser_fn soup = .error e) ↔ findTagList "div" soup = none)
    ∧ (∀ d, findTagList "div" soup = some d →
        ((d.children.filter (isTag "div") = [] → get_parser_fn soup = .ok .format2)
          ∧ ∀ first rest, d.children.filter (isTag "div") = first :: rest →
              get_parser_fn soup =
                .ok (if pyLower (pyStrip first.textContent) = PARSE_FMT_1_IND
                  then ParserChoice.format1 else ParserChoice.format2)))
    ∧ (get_parser_fn soup = .ok .format1 ↔
        ∃ d first rest, findTagList "div" soup = some d
          ∧ d.children.filter (isTag "div") = first :: rest
          ∧ pyLower (pyStrip first.textContent) = PARSE_FMT_1_IND) := by
  cases hf : findTagList "div" soup with
  | none =>
    refine ⟨by simp [get_parser_fn, hf], ?_, by simp [get_parser_fn, hf]⟩
    intro d hd
    simp at hd
  | some d0 =>
    cases hfl : d0.children.filter (isTag "div") with
    | nil =>
      refine ⟨by simp [get_parser_fn, hf, hfl], ?_, by simp [get_parser_fn, hf, hfl]⟩
      intro d hd
      simp only [Option.some.injEq] at hd
      subst hd
      refine ⟨fun _ => by simp [get_parser_fn, hf, hfl], ?_⟩
      intro first rest hcons
      rw [hfl] at hcons
      cases hcons
    | cons first0 rest0 =>
      by_cases hsent : pyLower (pyStrip first0.textContent) = PARSE_FMT_1_IND
      · refine ⟨by simp [get_parser_fn, hf, hfl, hsent], ?_, ?_⟩
        · intro d hd
          simp only [Option.some.injEq] at hd
          subst hd
          refine ⟨?_, ?_⟩
          · intro habs
            rw [hfl] at habs
            cases habs
          · intro first rest hcons
            rw [hfl] at hcons
            injection hcons with h1 h2
            subst h1
            simp [get_parser_fn, hf, hfl, hsent]
        · constructor
          · intro _
            exact ⟨d0, first0, rest0, rfl, hfl, hsent⟩
          · intro _
            simp [get_parser_fn, hf, hfl, hsent]
      · refine ⟨by simp [get_parser_fn, hf, hfl, hsent], ?_, ?_⟩
        · intro d hd
          simp only [Option.some.injEq] at hd
          subst hd
          refine ⟨?_, ?_⟩
          · intro habs
            rw [hfl] at habs
            cases habs
          · intro first rest hcons
            rw [hfl] at hcons
            injection hcons with h1 h2
            subst h1
            simp [get_parser_fn, hf, hfl, hsent]
        · constructor
          · intro hok
            exact absurd hok (by simp [get_parser_fn, hf, hfl, hsent])
          · rintro ⟨d, first, rest, hd, hcons, hs⟩
            simp only [hf, Option.some.injEq] at hd
            subst hd
            rw [hfl] at hcons
            injection hcons with h1 h2
            subst h1
            exact absurd hs hsent

/-- Variant A document: the outermost div's first child div reads
" Receipt ". -/
def c5Format1Doc : List Node :=
  [Node.elem "div" [Node.elem "div" [Node.text "  Receipt "], Node.elem "p" [Node.text "x"]]]

/-- Witness for C5 at a concrete Variant A document. -/
theorem c5_layout_detector_witness : get_parser_fn c5Format1Doc = .ok ParserChoice.format1 := by
  have h := ((c5_layout_detector c5Format1Doc).2.1
      (Node.elem "div" [Node.elem "div" [Node.text "  Receipt "], Node.elem "p" [Node.text "x"]])
      (by rfl)).2
    (Node.elem "div" [Node.text "  Receipt "]) [] (by rfl)
  exact h.trans (by decide)

/-- Document whose outermost container has no first-level child div. -/
def c5NoChildDoc : List Node := [Node.elem "div" []]

/-- Counterexample to C5 as stated: a document with an outermost container
but no root child div; the claim predicts a structural failure, yet the
detector selects Variant B without error. -/
theorem c5_counterexample :
    get_parser_fn c5NoChildDoc = .ok ParserChoice.format2
    ∧ ∀ e, get_parser_fn c5NoChildDoc ≠ .error e := by
  refine ⟨rfl, ?_⟩
  intro e h
  exact Except.noConfusion h

/-! ## Totality of the classifier (claim C6) -/

theorem condLenIdx_ok (lenOk : Bool) (l : List String) (i : Nat) (test : String → Bool)
    (h : lenOk = true → i < l.length) : ∃ b, condLenIdx lenOk l i test = .ok b := by
  cases lenOk with
  | false => exact ⟨false, rfl⟩
  | true =>
    have hi := h rfl
    have ha : l[i]? = some l[i] := List.getElem?_eq_getElem hi
    exact ⟨test l[i], by simp [condLenIdx, listIdx, ha]⟩

theorem condLenIdx2_ok (lenOk : Bool) (l : List String) (i : Nat) (t1 : String → Bool)
    (j : Nat) (t2 : String → Bool) (h : lenOk = true → i < l.length ∧ j < l.length) :
    ∃ b, condLenIdx2 lenOk l i t1 j t2 = .ok b := by
  cases lenOk with
  | false => exact ⟨false, rfl⟩
  | true =>
    have hi := (h rfl).1
    have hj := (h rfl).2
    have ha : l[i]? = some l[i] := List.getElem?_eq_getElem hi
    have ha2 : l[j]? = some l[j] := List.getElem?_eq_getElem hj
    by_cases ht : t1 l[i] = true
    · exact ⟨t2 l[j], by simp [condLenIdx2, listIdx, ha, ha2, ht]⟩
    · exact ⟨false, by simp [condLenIdx2, listIdx, ha, ht]⟩

/-- C6: classification is total — `determine_item_type` returns an
`ItemType` (never an `IndexError`, despite the positional indexing) for every
fragment list, falling through to UNKNOWN when no rule matches; it is
deterministic because the embedding is a pure function of the fragment
list. -/
theorem c6_classifier_total (l : List String) :
    ∃ t : ItemType, determine_item_type l = .ok t := by
  have len4a : (l.length == 4) = true → 2 < l.length := by
    intro h
    simp only [beq_iff_eq] at h
    omega
  have len4b : (l.length == 4) = true → 2 < l.length ∧ 0 < l.length := by
    intro h
    simp only [beq_iff_eq] at h
    omega
  have len3a : (l.length == 3) = true → 1 < l.length := by
    intro h
    simp only [beq_iff_eq] at h
    omega
  have len3b : (l.length == 3) = true → 2 < l.length ∧ 1 < l.length := by
    intro h
    simp only [beq_iff_eq] at h
    omega
  have len3c : (l.length == 3) = true → 2 < l.length ∧ 0 < l.length := by
    intro h
    simp only [beq_iff_eq] at h
    omega
  obtain ⟨b1, h1⟩ := condLenIdx_ok (l.length == 4) l 2 (fun s => s == "movie rental") len4a
  obtain ⟨b2, h2⟩ := condLenIdx_ok (l.length == 4) l 2 (fun s => s == "movie") len4a
  obtain ⟨b3, h3⟩ := condLenIdx_ok (l.length == 4) l 2 (fun s => s == "in-app purchase") len4a
  obtain ⟨b4, h4⟩ := condLenIdx_ok (l.length == 3) l 1 (fun s => s == "in-app purchase") len3a
  obtain ⟨b5, h5⟩ := condLenIdx2_ok (l.length == 3) l 2 (fun s => pyStartsWith s "renews")
    1 (fun s => STREAMING_SUBSCRIPTIONS.contains (stream_desc s)) len3b
  obtain ⟨b6, h6⟩ := condLenIdx2_ok (l.length == 3) l 2 (fun s => pyStartsWith s "renews")
    0 (fun s => SOFTWARE_SUBSCRIPTIONS.contains s) len3c
  obtain ⟨b7, h7⟩ := condLenIdx2_ok (l.length == 3) l 2 (fun s => pyStartsWith s "renews")
    0 (fun s => SERVICE_SUBSCRIPTIONS.contains (srvc_desc s)) len3c
  obtain ⟨b8, h8⟩ := condLenIdx2_ok (l.length == 4) l 2 (fun s => pyStartsWith s "renews")
    0 (fun s => INDIVIDUAL_SUBSCRIPTIONS.contains s) len4b
  cases b1 with
  | true => exact ⟨.MOVIE_RENTAL, by simp only [determine_item_type, h1]⟩
  | false =>
  cases b2 with
  | true => exact ⟨.MOVIE_PURCHASE, by simp only [determine_item_type, h1, h2]⟩
  | false =>
  cases b3 with
  | true => exact ⟨.IN_APP_PURCHASE, by simp only [determine_item_type, h1, h2, h3]⟩
  | false =>
  cases b4 with
  | true => exact ⟨.IN_APP_MOVIE_RENTAL, by simp only [determine_item_type, h1, h2, h3, h4]⟩
  | false =>
  cases b5 with
  | true => exact ⟨.STREAMING_SUBSCRIPTION, by simp only [determine_item_type, h1, h2, h3, h4, h5]⟩
  | false =>
  cases b6 with
  | true => exact ⟨.SOFTWARE_SUBSCRIPTION, by simp only [determine_item_type, h1, h2, h3, h4, h5, h6]⟩
  | false =>
  cases b7 with
  | true => exact ⟨.SERVICE_SUBSCRIPTION, by simp only [determine_item_type, h1, h2, h3, h4, h5, h6, h7]⟩
  | false =>
  cases b8 with
  | true =>
    exact ⟨.INDIVIDUAL_SUBSCRIPTION, by simp only [determine_item_type, h1, h2, h3, h4, h5, h6, h7, h8]⟩
  | false =>
    exact ⟨.UNKNOWN, by simp only [determine_item_type, h1, h2, h3, h4, h5, h6, h7, h8]⟩

/-! ## Classification scenarios (claims C7, C9, C10) -/

/-- A date parser that always fails, for concrete scenarios whose item types
never invoke the renewal-date parse. -/
def pdNone : String → Option String := fun _ => none

/-- C7 (amended): constructing an Item from the fragments
["Blink Twice", "Thriller", "Movie Rental", "Device A"] yields item type
MOVIE_RENTAL with device "device a" and secondary description "thriller" —
`Item.__init__` lower-cases every fragment before the derivations run, so the
derived fields are the lower-cased forms of the original fragments. -/
theorem c7_movie_rental_scenario (pd : String → Option String) (cat : ItemCategory)
    (pa oa : ℤ) (iu : String) :
    ∃ it, itemInit pd cat ["Blink Twice", "Thriller", "Movie Rental", "Device A"] pa oa iu
        = .ok it
      ∧ it.item_type = .MOVIE_RENTAL
      ∧ it.device = some "device a"
      ∧ it.description_2 = some "thriller" :=
  ⟨_, rfl, rfl, rfl, rfl⟩

/-- Counterexample to C7 as stated: the constructed item's device and
secondary description are the lower-cased "device a" and "thriller", not the
original-cased "Device A" and "Thriller" the claim asserts. -/
theorem c7_counterexample :
    ∃ it, itemInit pdNone .TV ["Blink Twice", "Thriller", "Movie Rental", "Device A"]
        1500 0 "url" = .ok it
      ∧ it.item_type = .MOVIE_RENTAL
      ∧ it.device ≠ some "Device A"
      ∧ it.description_2 ≠ some "Thriller"
      ∧ it.device = some "device a"
      ∧ it.description_2 = some "thriller" :=
  ⟨_, rfl, rfl, by decide, by decide, rfl, rfl⟩

/-- C9: for subscription-family item types the cadence is derived from
substrings of the second fragment, monthly keywords first, then the six-month
keyword, then the annual keywords, defaulting to the explicit UNKNOWN cadence
member; for every non-subscription type the cadence is absent (`none`). -/
theorem c9_subscription_cadence (t : ItemType) (l : List String) (s : String) :
    ((t = .STREAMING_SUBSCRIPTION ∨ t = .SOFTWARE_SUBSCRIPTION
        ∨ t = .SERVICE_SUBSCRIPTION ∨ t = .INDIVIDUAL_SUBSCRIPTION) →
      l.get? 1 = some s →
      (((pyContains s "(monthly)" || pyContains s "monthly") = true →
          determine_subscription_frequency t l = .ok (some .MONTHLY))
        ∧ ((pyContains s "(monthly)" || pyContains s "monthly") = false →
            pyContains s "6 month" = true →
            determine_subscription_frequency t l = .ok (some .SEMI_ANNUAL))
        ∧ ((pyContains s "(monthly)" || pyContains s "monthly") = false →
            pyContains s "6 month" = false →
            (pyContains s "(annual)" || pyContains s "(yearly)") = true →
            determine_subscription_frequency t l = .ok (some .ANNUAL))
        ∧ ((pyContains s "(monthly)" || pyContains s "monthly") = false →
            pyContains s "6 month" = false →
            (pyContains s "(annual)" || pyContains s "(yearly)") = false →
            determine_subscription_frequency t l = .ok (some .UNKNOWN))))
    ∧ ((t = .MOVIE_RENTAL ∨ t = .MOVIE_PURCHASE ∨ t = .IN_APP_PURCHASE
        ∨ t = .IN_APP_MOVIE_RENTAL ∨ t = .UNKNOWN) →
      determine_subscription_frequency t l = .ok none) := by
  constructor
  · intro ht hs
    have hs2 : l[1]? = some s := by simpa using hs
    have hidx : listIdx l 1 = .ok s := by simp [listIdx, hs2]
    have hbody : determine_subscription_frequency t l =
        (if (["(monthly)", "monthly"].any fun v => pyContains s v) = true then
          .ok (some .MONTHLY)
        else if (["6 month"].any fun v => pyContains s v) = true then
          .ok (some .SEMI_ANNUAL)
        else if (["(annual)", "(yearly)"].any fun v => pyContains s v) = true then
          .ok (some .ANNUAL)
        else .ok (some .UNKNOWN)) := by
      rcases ht with rfl | rfl | rfl | rfl <;>
        simp only [determine_subscription_frequency, hidx]
    refine ⟨?_, ?_, ?_, ?_⟩
    · intro hm
      rw [hbody]
      simp [List.any_cons, List.any_nil, Bool.or_false, hm]
    · intro hm h6
      simp only [Bool.or_eq_false_iff] at hm
      rw [hbody]
      simp [List.any_cons, List.any_nil, Bool.or_false, hm.1, hm.2, h6]
    · intro hm h6 hann
      simp only [Bool.or_eq_false_iff] at hm
      rw [hbody]
      simp [List.any_cons, List.any_nil, Bool.or_false, hm.1, hm.2, h6, hann]
    · intro hm h6 hann
      simp only [Bool.or_eq_false_iff] at hm hann
      rw [hbody]
      simp [List.any_cons, List.any_nil, Bool.or_false, hm.1, hm.2, h6, hann.1, hann.2]
  · intro ht
    rcases ht with rfl | rfl | rfl | rfl | rfl <;> rfl

/-- Witness for C9: a monthly streaming cadence and an absent movie-rental
cadence at concrete inputs. -/
theorem c9_subscription_cadence_witness :
    determine_subscription_frequency .STREAMING_SUBSCRIPTION
        ["max", "max standard (monthly)", "renews march 24, 2025"] = .ok (some .MONTHLY)
      ∧ determine_subscription_frequency .MOVIE_RENTAL
        ["blink twice", "thriller", "movie rental", "device a"] = .ok none :=
  ⟨((c9_subscription_cadence .STREAMING_SUBSCRIPTION
        ["max", "max standard (monthly)", "renews march 24, 2025"]
        "max standard (monthly)").1 (by decide) (by rfl)).1 (by decide),
    (c9_subscription_cadence .MOVIE_RENTAL
        ["blink twice", "thriller", "movie rental", "device a"] "thriller").2 (by decide)⟩

/-- C10: constructing an Item from an empty fragment list fails:
classification resolves to UNKNOWN, the UNKNOWN branch of the
primary-description derivation indexes the first fragment of the empty list,
and `Item.__init__` therefore raises an `IndexError` instead of producing an
item. -/
theorem c10_empty_fragments_index_error (pd : String → Option String)
    (cat : ItemCategory) (pa oa : ℤ) (iu : String) :
    determine_item_type ([] : List String) = .ok .UNKNOWN
    ∧ determine_description_1 .UNKNOWN [] = .error "IndexError"
    ∧ itemInit pd cat [] pa oa iu = .error "IndexError" :=
  ⟨rfl, rfl, rfl⟩

/-! ## Closed-world field validation of Variant A (claim C8) -/

theorem setSect1Attribs_error (fnv : List (String × String)) (re : ReceiptEmailRec)
    (hk : ∃ k ∈ fnv.map Prod.fst, (FIELD_ATTR_SECTION_1.map Prod.fst).contains k = false) :
    setSect1Attribs fnv re = .error "ValueError: section 1 - one or more undefined attributes" := by
  obtain ⟨k, hkm, hkc⟩ := hk
  have hne : ((fnv.map Prod.fst).filter
      (fun k => !((FIELD_ATTR_SECTION_1.map Prod.fst).contains k))) ≠ [] := by
    intro he
    have hmem : k ∈ (fnv.map Prod.fst).filter
        (fun k => !((FIELD_ATTR_SECTION_1.map Prod.fst).contains k)) :=
      List.mem_filter.mpr ⟨hkm, by simp only [hkc, Bool.not_false]⟩
    rw [he] at hmem
    simp at hmem
  simp only [setSect1Attribs]
  rw [if_pos hne]

theorem setSect3Attribs_error (decP : String → Except String ℤ)
    (fnv : List (String × String)) (re : ReceiptEmailRec)
    (hk : ∃ k ∈ fnv.map Prod.fst, (FIELD_ATTR_SECTION_3.map Prod.fst).contains k = false) :
    setSect3Attribs decP fnv re
      = .error "ValueError: section 3 - one or more undefined attributes" := by
  obtain ⟨k, hkm, hkc⟩ := hk
  have hne : ((fnv.map Prod.fst).filter
      (fun k => !((FIELD_ATTR_SECTION_3.map Prod.fst).contains k))) ≠ [] := by
    intro he
    have hmem : k ∈ (fnv.map Prod.fst).filter
        (fun k => !((FIELD_ATTR_SECTION_3.map Prod.fst).contains k)) :=
      List.mem_filter.mpr ⟨hkm, by simp only [hkc, Bool.not_false]⟩
    rw [he] at hmem
    simp at hmem
  simp only [setSect3Attribs]
  rw [if_pos hne]

/-- C8: in Variant A, a parsed field label outside the known
field-to-attribute mapping of the header section (section 1) or of the
totals section (section 3) makes processing of that section raise the
`ValueError` instead of ignoring the label. -/
theorem c8_unknown_label_raises (pd : String → Option String)
    (decP : String → Except String ℤ) (sec1 sec3 : Node) (re1 re3 : ReceiptEmailRec) :
    (∀ fnv, parseSect1Pairs (sec1.children.filter (isTag "div")) = .ok fnv →
      (∃ k ∈ fnv.map Prod.fst, (FIELD_ATTR_SECTION_1.map Prod.fst).contains k = false) →
      ∃ e, processSection1 pd sec1 re1 = .error e)
    ∧ (∀ dt fnv, sect3DivTag sec3 = .ok dt → parseSect3Fields dt = .ok fnv →
      (∃ k ∈ fnv.map Prod.fst, (FIELD_ATTR_SECTION_3.map Prod.fst).contains k = false) →
      ∃ e, processSection3 decP sec3 re3 = .error e) := by
  constructor
  · intro fnv hp hk
    cases hf : findTagList "p" sec1.children with
    | none =>
      refine ⟨"AttributeError", ?_⟩
      simp [processSection1, hf]
    | some pTag =>
      have hset := setSect1Attribs_error fnv
        { re1 with receipt_date := parse_date pd pTag.textContent } hk
      refine ⟨"ValueError: section 1 - one or more undefined attributes", ?_⟩
      simp [processSection1, hf, hp, hset]
  · intro dt fnv h3 hpf hk
    have hset := setSect3Attribs_error decP fnv re3 hk
    refine ⟨"ValueError: section 3 - one or more undefined attributes", ?_⟩
    simp [processSection3, h3, hpf, hset]

/-- Header section whose single field pair carries the unknown label
"Bogus". -/
def c8Sec1 : Node :=
  Node.elem "div" [Node.elem "p" [Node.text "Nov 1, 2023"],
    Node.elem "div" [Node.elem "p" [Node.text "Bogus:"], Node.elem "p" [Node.text "v"]]]

/-- The label/value block of the totals section below, with the unknown
label "Shipping". -/
def c8Sect3Inner : Node :=
  Node.elem "div" [Node.elem "p" [Node.text "Shipping"], Node.elem "div" [Node.text "$1.00"]]

/-- The second child div of the totals section below. -/
def c8Sect3DivTag : Node := Node.elem "div" [c8Sect3Inner]

/-- Totals section whose single field pair carries the unknown label
"Shipping". -/
def c8Sec3 : Node :=
  Node.elem "div" [Node.elem "div" [Node.elem "div" [], c8Sect3DivTag]]

/-- A decimal-string parser model that always yields zero, for scenarios
that fail before parsing any value. -/
def decPZero : String → Except String ℤ := fun _ => .ok 0

/-- The `ReceiptEmail` DTO as `__init__` leaves it (receipt_email.py). -/
def emptyReceiptEmail : ReceiptEmailRec :=
  { receipt_date := none, order_id := "", doc_nbr := "", apple_account := "",
    subtotal := 0, tax := 0, card := none, total := 0 }

/-- Witness for C8: unknown labels in a concrete header section and a
concrete totals section both raise. -/
theorem c8_unknown_label_raises_witness :
    (∃ e, processSection1 pdNone c8Sec1 emptyReceiptEmail = .error e)
    ∧ (∃ e, processSection3 decPZero c8Sec3 emptyReceiptEmail = .error e) :=
  ⟨(c8_unknown_label_raises pdNone decPZero c8Sec1 c8Sec3
        emptyReceiptEmail emptyReceiptEmail).1
      [("bogus", "v")] (by rfl) ⟨"bogus", by decide, by decide⟩,
    (c8_unknown_label_raises pdNone decPZero c8Sec1 c8Sec3
        emptyReceiptEmail emptyReceiptEmail).2
      c8Sect3DivTag [("shipping", "$1.00")] (by rfl) (by rfl)
      ⟨"shipping", by decide, by decide⟩⟩
